import Mathlib

/-!
A verification development for the encrypted-credential lifecycle and
Kubernetes cluster introspection subsystem of the ansible-platform backend.

The Python sources embedded here are:
  * `src/utils/encryption.py` — `EncryptionManager` (`encrypt_data`,
    `decrypt_data`, `rotate_key`, `_validate_and_decode_key`);
  * `src/modules/kubernetes/schemas.py` — `ExistingClusterRegister.validate_all_fields`;
  * `src/modules/kubernetes/service.py` — `KubernetesClusterService`
    (registration, auth resolution, node-summary query, node parsing,
    role classification, health classification, status update, deletion).

External libraries (the `cryptography.fernet` cipher, Python's
`base64.urlsafe_b64decode`, string `strip`/`replace`) are modelled
explicitly; the Fernet cipher itself is modelled as an ideal authenticated
encryption scheme keyed by its 32 decoded key bytes, which is the
documented contract the repository code relies on.
-/

namespace AnsiblePlatform

/-! ## Python string helpers

`pyStrip ws s` models Python `str.strip()` restricted to ASCII whitespace,
and `pyStripChar c s` models `str.strip(c)` for a single-character
argument.  Both remove matching characters from both ends. -/

def isPyWhitespace (c : Char) : Bool :=
  c = ' ' || c = '\t' || c = '\n' || c = '\r' || c = '\x0b' || c = '\x0c'

def stripEndsBy (p : Char → Bool) (cs : List Char) : List Char :=
  ((cs.dropWhile p).reverse.dropWhile p).reverse

/-- Models Python `key_str.strip().strip('"').strip("'")` from
`EncryptionManager._validate_and_decode_key` (encryption.py line 107). -/
def pyStripKeyChars (cs : List Char) : List Char :=
  stripEndsBy (· = '\'') (stripEndsBy (· = '"') (stripEndsBy isPyWhitespace cs))

def pyStripKey (s : String) : String :=
  ⟨pyStripKeyChars s.data⟩

/-- Models Python `str.strip()` (ASCII whitespace only). -/
def pyStripWs (s : String) : String :=
  ⟨stripEndsBy isPyWhitespace s.data⟩

/-! ## urlsafe base64 decoding

Models Python `base64.urlsafe_b64decode` on strings drawn from the
urlsafe alphabet with trailing `=` padding.  Inputs containing characters
outside the alphabet, or padding not at the very end, are rejected; the
CPython decoder is slightly more lenient on such malformed inputs but the
repository only ever reaches this decoder through the 44-character key
gate, where the two semantics agree on every accepted key. -/

def b64UrlVal (c : Char) : Option Nat :=
  if 'A' ≤ c ∧ c ≤ 'Z' then some (c.toNat - 'A'.toNat)
  else if 'a' ≤ c ∧ c ≤ 'z' then some (c.toNat - 'a'.toNat + 26)
  else if '0' ≤ c ∧ c ≤ '9' then some (c.toNat - '0'.toNat + 52)
  else if c = '-' then some 62
  else if c = '_' then some 63
  else none

def decodeB64Quads : List Char → Except String (List Nat)
  | [] => .ok []
  | c1 :: c2 :: c3 :: c4 :: rest =>
    match b64UrlVal c1, b64UrlVal c2 with
    | some v1, some v2 =>
      if c3 = '=' then
        if c4 = '=' ∧ rest = [] then
          .ok [v1 * 4 + v2 / 16]
        else .error "Incorrect padding"
      else
        match b64UrlVal c3 with
        | some v3 =>
          if c4 = '=' then
            if rest = [] then
              .ok [v1 * 4 + v2 / 16, (v2 % 16) * 16 + v3 / 4]
            else .error "Incorrect padding"
          else
            match b64UrlVal c4 with
            | some v4 =>
              match decodeB64Quads rest with
              | .ok bs =>
                .ok ([v1 * 4 + v2 / 16, (v2 % 16) * 16 + v3 / 4,
                      (v3 % 4) * 64 + v4] ++ bs)
              | .error e => .error e
            | none => .error "Invalid base64-encoded string"
        | none => .error "Invalid base64-encoded string"
    | _, _ => .error "Invalid base64-encoded string"
  | _ => .error "Incorrect padding"

/-- Models `base64.urlsafe_b64decode(key_str)` as used on candidate
Fernet key strings. -/
def pyUrlsafeB64Decode (s : String) : Except String (List Nat) :=
  if s.data.length % 4 ≠ 0 then .error "Incorrect padding"
  else decodeB64Quads s.data

/-! ## The Fernet cipher, modelled as ideal authenticated encryption

`cryptography.fernet.Fernet(key)` decodes `key` from urlsafe base64 and
requires exactly 32 bytes; encryption under those bytes produces an
authenticated token that decrypts only under a cipher holding the same
32 key bytes, and any other key or any tampered token raises
`InvalidToken`.  We model a token symbolically as the pair of its key
bytes and plaintext, which is exactly the information the authenticated
encryption contract exposes to honest code. -/

/-- Key bytes actually used by a `Fernet` cipher built from a key string:
the urlsafe-base64 decoding, which the constructor requires to be exactly
32 bytes. -/
def fernetKeyBytes (keyStr : String) : Except String (List Nat) :=
  match pyUrlsafeB64Decode keyStr with
  | .error e => .error e
  | .ok bs => if bs.length = 32 then .ok bs else .error "Fernet key must be 32 url-safe base64-encoded bytes."

/-- A Fernet token: output of `Fernet(key).encrypt(msg.encode())`.
The UTF-8 byte round-trip `msg.encode()`/`.decode()` is folded into the
`String` plaintext field. -/
structure FernetToken where
  keyBytes : List Nat
  msg : String
deriving DecidableEq, Repr

/-- The string stored in the `kubeconfig` database column: either the
empty string, the urlsafe-base64 transport encoding of a valid Fernet
token (as produced by `encrypt_data`), or any other non-empty string —
one that does not decode to a valid authenticated token (a corrupted or
foreign blob).  `garbage` carries a tag so distinct corrupted strings can
be represented. -/
inductive DbText where
  | empty
  | blob (t : FernetToken)
  | garbage (tag : Nat)
deriving DecidableEq, Repr

/-- The error taxonomy of `encrypt_data`/`decrypt_data`: both raise
`ValueError`, but with distinguishable context — decryption failure
carries the `"Decryption failed - possible key mismatch"` message that
upstream code uses as the "cluster must be re-registered" signal. -/
inductive CryptoError where
  | decryptionFailed
  | encryptionFailed
deriving DecidableEq, Repr

/-- The mutable state of `EncryptionManager`: the key bytes of the
currently active `cipher_suite`. -/
structure EncryptionManager where
  cipherKey : List Nat
deriving DecidableEq, Repr

/-- `EncryptionManager.encrypt_data` (encryption.py lines 132–143):
empty input short-circuits to the empty string; otherwise the Fernet
token for the active key is re-encoded with `urlsafe_b64encode` for
storage (`Fernet.encrypt` does not fail on a well-formed cipher, so the
`ValueError("Encryption failed")` branch is unreachable here). -/
def encrypt_data (m : EncryptionManager) (data : String) : DbText :=
  if data = "" then .empty
  else .blob ⟨m.cipherKey, data⟩

/-- `EncryptionManager.decrypt_data` (encryption.py lines 145–158):
empty input short-circuits to the empty string; otherwise the stored
string is base64-decoded and handed to `cipher_suite.decrypt`, and every
failure (key mismatch, tampered token, malformed base64) is re-raised as
the distinguishable `ValueError("Decryption failed - possible key
mismatch: ...")`, modelled as `CryptoError.decryptionFailed`. -/
def decrypt_data (m : EncryptionManager) (stored : DbText) : Except CryptoError String :=
  match stored with
  | .empty => .ok ""
  | .blob t => if t.keyBytes = m.cipherKey then .ok t.msg else .error .decryptionFailed
  | .garbage _ => .error .decryptionFailed

/-- `EncryptionManager._validate_and_decode_key` (encryption.py lines
99–130): strip whitespace and quotes, require exactly 44 characters,
urlsafe-base64 decode, require exactly 32 decoded bytes, then probe a
temporary `Fernet` instance (which re-checks the same conditions, so the
probe cannot fail once the earlier checks passed).  Returns the stripped
key string (`key_str.encode()`), and on any failure the wrapping
`ValueError("Invalid encryption key format: ...")`. -/
def validate_and_decode_key (keyStr : String) : Except String String :=
  if keyStr = "" then .error "Empty encryption key provided"
  else
    let stripped := pyStripKey keyStr
    if stripped.data.length ≠ 44 then
      .error "Invalid encryption key format: Key must be 44 characters long"
    else
      match pyUrlsafeB64Decode stripped with
      | .error _ => .error "Invalid encryption key format: invalid base64"
      | .ok bs =>
        if bs.length ≠ 32 then
          .error "Invalid encryption key format: Key must decode to 32 bytes"
        else .ok stripped

/-- `EncryptionManager.rotate_key` (encryption.py lines 160–186):
validate the candidate key (failure → `False`, state untouched), swap
`cipher_suite` to a `Fernet` over the validated key, round-trip the probe
string `"test_rotation"`, and keep the new cipher only if the probe
succeeds, reverting otherwise.  Returns the manager state paired with the
boolean result. -/
def rotate_key (m : EncryptionManager) (newKey : String) : EncryptionManager × Bool :=
  match validate_and_decode_key newKey with
  | .error _ => (m, false)
  | .ok validated =>
    match fernetKeyBytes validated with
    | .error _ => (m, false)
    | .ok kb =>
      let m' : EncryptionManager := ⟨kb⟩
      match decrypt_data m' (encrypt_data m' "test_rotation") with
      | .ok d => if d = "test_rotation" then (m', true) else (m, false)
      | .error _ => (m, false)

/-! ## The synthesized token kubeconfig (ConnectionDescriptor) -/

/-- The `cluster` sub-mapping of the synthesized kubeconfig:
`insecureSkipTlsVerify = none` models the `insecure-skip-tls-verify` key
being absent from the YAML, `some b` models it being present with value
`b`. -/
structure TokenClusterConfig where
  server : String
  insecureSkipTlsVerify : Option Bool
deriving DecidableEq, Repr

/-- The minimal single-cluster/single-user/single-context kubeconfig
document synthesized for bearer-token authentication. -/
structure TokenKubeconfig where
  apiVersion : String
  kind : String
  clusterName : String
  cluster : TokenClusterConfig
  userName : String
  userToken : String
  contextName : String
  contextCluster : String
  contextUser : String
  contextNamespace : String
  currentContext : String
deriving DecidableEq, Repr

/-- `KubernetesClusterService._create_kubeconfig_with_token`
(service.py lines 306–347): builds the minimal kubeconfig binding the
token against `api_server`; for an `https://` URL it sets
`insecure-skip-tls-verify: True` in the cluster config (the YAML
serialization itself is an external-library bijection and is not
modelled). -/
def create_kubeconfig_with_token (token api_server : String) : TokenKubeconfig :=
  { apiVersion := "v1"
    kind := "Config"
    clusterName := "token-cluster"
    cluster :=
      { server := api_server
        insecureSkipTlsVerify :=
          if "https://".data.isPrefixOf api_server.data then some true else none }
    userName := "token-user"
    userToken := token
    contextName := "token-context"
    contextCluster := "token-cluster"
    contextUser := "token-user"
    contextNamespace := "default"
    currentContext := "token-context" }

/-! ## Python `str.replace(old, '')`

`_parse_nodes_json` computes each role as
`label_key.replace('node-role.kubernetes.io/', '')`, which removes every
(left-to-right, non-overlapping) occurrence of the prefix — not only a
leading one.  `removeAll` models that removal; it recurses on a fuel
argument bounded by the string length so that it stays structurally
recursive and computable by the kernel. -/

def removeAllFuel (pat : List Char) : Nat → List Char → List Char
  | 0, cs => cs
  | _ + 1, [] => []
  | fuel + 1, c :: rest =>
    if pat.isPrefixOf (c :: rest) then removeAllFuel pat fuel ((c :: rest).drop pat.length)
    else c :: removeAllFuel pat fuel rest

/-- Python `cs.replace(pat, '')` for a non-empty pattern. -/
def removeAll (pat cs : List Char) : List Char :=
  removeAllFuel pat cs.length cs

/-- Whether `pat` occurs as a contiguous sublist of `cs`. -/
def hasOccur (pat : List Char) : List Char → Bool
  | [] => pat.isEmpty
  | c :: rest => pat.isPrefixOf (c :: rest) || hasOccur pat rest

def strReplaceAllEmpty (pat s : String) : String :=
  ⟨removeAll pat.data s.data⟩

def strStartsWith (pre s : String) : Bool :=
  pre.data.isPrefixOf s.data

def strDropChars (n : Nat) (s : String) : String :=
  ⟨s.data.drop n⟩

/-! ## Node parsing and role classification -/

/-- The role-label prefix `node-role.kubernetes.io/`. -/
def rolePrefix : String := "node-role.kubernetes.io/"

structure NodeAddress where
  atype : String
  address : String
deriving DecidableEq, Repr

structure NodeCondition where
  ctype : String
  status : String
deriving DecidableEq, Repr

/-- The fragment of one `kubectl get nodes -o json` item read by
`_parse_nodes_json` (JSON-text parsing by `json.loads` is the external
collaborator; a parse failure surfaces as a query error). -/
structure NodeJson where
  name : String
  labels : List (String × String)
  addresses : List NodeAddress
  conditions : List NodeCondition
  kubeletVersion : String
  operatingSystem : String
  architecture : String
  creationTimestamp : String
deriving DecidableEq, Repr

/-- The normalized per-node record built by `_parse_nodes_json`. -/
structure NodeInfo where
  name : String
  status : String
  roles : List String
  version : String
  os : String
  architecture : String
  creation_timestamp : String
  ip_address : String
  labels : List (String × String)
deriving DecidableEq, Repr

/-- First `InternalIP`-typed address, defaulting to `"unknown"`
(service.py lines 431–437). -/
def extractIp (addrs : List NodeAddress) : String :=
  match addrs.find? (fun a => a.atype == "InternalIP") with
  | some a => a.address
  | none => "unknown"

/-- Status of the first `Ready`-typed condition, defaulting to
`"Unknown"` (service.py lines 452–453). -/
def extractReadyStatus (conds : List NodeCondition) : String :=
  match conds.find? (fun c => c.ctype == "Ready") with
  | some c => c.status
  | none => "Unknown"

/-- Role extraction (service.py lines 439–448): every label key starting
with `node-role.kubernetes.io/` contributes
`key.replace('node-role.kubernetes.io/', '')`; if no such label exists
and the legacy label `kubernetes.io/role` equals `master`, the single
role `master` is used. -/
def extractRoles (labels : List (String × String)) : List String :=
  let roles := labels.filterMap fun p =>
    if strStartsWith rolePrefix p.1 then some (strReplaceAllEmpty rolePrefix p.1) else none
  if roles = [] ∧ List.lookup "kubernetes.io/role" labels = some "master" then ["master"]
  else roles

/-- The role rule as the claim words it: the *suffix* of each
`node-role.kubernetes.io/<role>` label key, with the same legacy-label
fallback.  Kept separate from `extractRoles` (the source translation) so
the two can be compared. -/
def specRoles (labels : List (String × String)) : List String :=
  let roles := labels.filterMap fun p =>
    if strStartsWith rolePrefix p.1 then some (strDropChars rolePrefix.data.length p.1) else none
  if roles = [] ∧ List.lookup "kubernetes.io/role" labels = some "master" then ["master"]
  else roles

/-- One node of `_parse_nodes_json`'s output list. -/
def parseNode (n : NodeJson) : NodeInfo :=
  { name := n.name
    status := extractReadyStatus n.conditions
    roles := extractRoles n.labels
    version := n.kubeletVersion
    os := n.operatingSystem
    architecture := n.architecture
    creation_timestamp := n.creationTimestamp
    ip_address := extractIp n.addresses
    labels := n.labels }

/-- `KubernetesClusterService._parse_nodes_json` (service.py lines
424–469), on the already-JSON-parsed item list. -/
def parseNodesJson (items : List NodeJson) : List NodeInfo :=
  items.map parseNode

/-- `KubernetesClusterService._is_master_node` (service.py lines
471–475). -/
def is_master_node (ni : NodeInfo) : Bool :=
  ni.roles.contains "control-plane" || ni.roles.contains "master"

/-- `master_count` as computed in `get_cluster_node_summary`
(service.py line 386). -/
def masterCount (nodes : List NodeInfo) : Nat :=
  nodes.countP is_master_node

/-- `worker_count = len(nodes_info) - master_count`
(service.py line 387). -/
def workerCount (nodes : List NodeInfo) : Nat :=
  nodes.length - masterCount nodes

/-- A node whose only label is a pathological role label in which the
suffix itself contains the `node-role.kubernetes.io/` prefix: Python's
`replace` deletes *every* occurrence, so the computed role differs from
the label suffix. -/
def doublePrefixNode : NodeJson :=
  { name := "n1"
    labels := [("node-role.kubernetes.io/node-role.kubernetes.io/a", "true")]
    addresses := []
    conditions := []
    kubeletVersion := "v1.28.0"
    operatingSystem := "linux"
    architecture := "amd64"
    creationTimestamp := "2024-01-01T00:00:00Z" }

/-- A typical control-plane node. -/
def cpNode : NodeJson :=
  { name := "cp1"
    labels := [("node-role.kubernetes.io/control-plane", "")]
    addresses := [⟨"InternalIP", "10.0.0.1"⟩]
    conditions := [⟨"Ready", "True"⟩]
    kubeletVersion := "v1.28.0"
    operatingSystem := "linux"
    architecture := "amd64"
    creationTimestamp := "2024-01-01T00:00:00Z" }

/-! ## The cluster store and the service operations

The SQLAlchemy session is modelled as an explicit `Store` value; every
service operation returns the resulting store alongside its Python
return value.  The external `kubectl` invocation is a parameter of type
`QueryResult`: `.ok items` is a successful `kubectl get nodes -o json`
run whose JSON already parsed to `items`, `.err msg` is any
connection/auth/JSON-parse failure raised on the way (all of which
propagate to the same `except` block in `get_cluster_node_summary`). -/

/-- A persisted `kubernetes_clusters` row (the fields the claims read). -/
structure ClusterRec where
  id : Nat
  user_id : Nat
  name : String
  cluster_type : String
  auth_type : String
  api_server : Option String
  kubeconfig : DbText
  master_nodes : Nat
  worker_nodes : Nat
  status : String
  description : String
deriving DecidableEq, Repr

/-- A persisted `cluster_nodes` row. -/
structure NodeRow where
  cluster_id : Nat
  node_type : String
  hostname : String
deriving DecidableEq, Repr

structure Store where
  clusters : List ClusterRec
  nodes : List NodeRow
  nextId : Nat
deriving DecidableEq, Repr

/-- `KubernetesClusterService.get_cluster_by_id` (primary-key lookup;
ids are unique, so first match is the row). -/
def get_cluster_by_id (s : Store) (cid : Nat) : Option ClusterRec :=
  s.clusters.find? (fun c => c.id == cid)

/-- In-place mutation of the row with id `cid` followed by `commit`. -/
def updateClusterRow (s : Store) (cid : Nat) (f : ClusterRec → ClusterRec) : Store :=
  { s with clusters := s.clusters.map fun c => if c.id = cid then f c else c }

/-- Python falsiness of an optional string column (`None` or `""`). -/
def optStrFalsy : Option String → Bool
  | none => true
  | some s => s = ""

/-- `KubernetesClusterService.get_cluster_auth_data` (service.py lines
240–261): owner-checked lookup, then decryption of the stored blob;
every failure (missing record, foreign owner, empty column, decryption
error) collapses to the `(None, None)` sentinel, here `none`. -/
def get_cluster_auth_data (mgr : EncryptionManager) (s : Store) (cid uid : Nat) :
    Option (String × String) :=
  match get_cluster_by_id s cid with
  | none => none
  | some c =>
    if c.user_id ≠ uid then none
    else if c.kubeconfig = .empty then none
    else
      match decrypt_data mgr c.kubeconfig with
      | .ok a => some (a, c.auth_type)
      | .error _ => none

/-- Outcome of the external `kubectl get nodes -o json` collaborator. -/
inductive QueryResult where
  | ok (items : List NodeJson)
  | err (msg : String)
deriving DecidableEq, Repr

/-- The shapes of the dict returned by `get_cluster_node_summary`
(service.py lines 349–410), one constructor per `return` site. -/
inductive SummaryResult where
  | denied
  | authUnavailable
  | noApiServer
  | success (total master worker : Nat) (nodes : List NodeInfo) (auth_type : String)
  | queryError (total master worker : Nat) (auth_type : String) (error : String)
deriving DecidableEq, Repr

/-- The `"error"` key of the summary dict, when present (used by
`refresh_cluster_nodes` and by registration's best-effort count probe). -/
def SummaryResult.errorMsg : SummaryResult → Option String
  | .denied => some "Cluster not found or access denied"
  | .authUnavailable => some "Cluster authentication data unavailable. The cluster may need to be re-registered due to encryption key changes."
  | .noApiServer => some "API server URL is required for token authentication but not found in cluster record"
  | .queryError _ _ _ _ e => some e
  | .success _ _ _ _ _ => none

/-- `KubernetesClusterService.get_cluster_node_summary` (service.py
lines 349–410): owner check, auth resolution, token/api-server check,
then the kubectl query; on success the row is updated with the derived
counts and status `registered` and committed; on failure the dict echoes
the row's last-known counts with an error status and the store is left
untouched. -/
def get_cluster_node_summary (mgr : EncryptionManager) (s : Store) (cid uid : Nat)
    (q : QueryResult) : Store × SummaryResult :=
  match get_cluster_by_id s cid with
  | none => (s, .denied)
  | some c =>
    if c.user_id ≠ uid then (s, .denied)
    else
      match get_cluster_auth_data mgr s cid uid with
      | none => (s, .authUnavailable)
      | some (_, authType) =>
        if authType = "token" ∧ optStrFalsy c.api_server = true then (s, .noApiServer)
        else
          match q with
          | .ok items =>
            let nodes := parseNodesJson items
            let s' := updateClusterRow s cid fun c0 =>
              { c0 with master_nodes := masterCount nodes,
                        worker_nodes := workerCount nodes,
                        status := "registered" }
            (s', .success nodes.length (masterCount nodes) (workerCount nodes) nodes authType)
          | .err msg =>
            (s, .queryError (c.master_nodes + c.worker_nodes) c.master_nodes c.worker_nodes
              authType ("Failed to connect to cluster: " ++ msg))

/-- The two shapes returned by `refresh_cluster_nodes` (service.py lines
536–547). -/
inductive RefreshResult where
  | error (msg : String)
  | refreshed (message : String) (data : SummaryResult)
deriving DecidableEq, Repr

/-- `KubernetesClusterService.refresh_cluster_nodes`: re-runs the
summary pipeline; an error result is narrowed to `{"error": msg}` —
dropping every other key of the summary dict. -/
def refresh_cluster_nodes (mgr : EncryptionManager) (s : Store) (cid uid : Nat)
    (q : QueryResult) : Store × RefreshResult :=
  let out := get_cluster_node_summary mgr s cid uid q
  match out.2.errorMsg with
  | some m => (out.1, .error m)
  | none => (out.1, .refreshed "Cluster nodes refreshed successfully" out.2)

/-- Whether a refresh result hands the caller the node counts `(m, w)`
(the claim asserts the caller always receives the last-known counts
alongside the error flag). -/
def refreshCarriesCounts (r : RefreshResult) (m w : Nat) : Bool :=
  match r with
  | .refreshed _ (.success _ m' w' _ _) => m' == m && w' == w
  | .refreshed _ (.queryError _ m' w' _ _) => m' == m && w' == w
  | _ => false

/-- `ready_nodes` of `get_cluster_health`: entries whose `Ready`
condition status string is `"True"`. -/
def readyCount (nodes : List NodeInfo) : Nat :=
  nodes.countP (fun n => n.status == "True")

/-- Health classification from `get_cluster_health` (service.py lines
566–575).  Python compares `ready_nodes >= total_nodes * 0.5` in float
arithmetic; `total * 0.5` is exact for these magnitudes, so the test is
exactly `2 * ready ≥ total`. -/
def computeHealth (ready total : Nat) : String :=
  if total = 0 then "critical"
  else if ready = total then "healthy"
  else if 2 * ready ≥ total then "warning"
  else "critical"

/-- The `ClusterStatusResponse` schema. -/
structure ClusterStatusResponse where
  cluster_id : Nat
  name : String
  status : String
  node_summary : Option SummaryResult
  health_status : String
deriving DecidableEq, Repr

/-- `KubernetesClusterService.get_cluster_health` (service.py lines
549–575): raises for a missing/foreign cluster; otherwise wraps the
summary, attaching `computeHealth` on success and `"unknown"` on any
summary error. -/
def get_cluster_health (mgr : EncryptionManager) (s : Store) (cid uid : Nat)
    (q : QueryResult) : Except String (Store × ClusterStatusResponse) :=
  match get_cluster_by_id s cid with
  | none => .error "Cluster not found or access denied"
  | some c =>
    if c.user_id ≠ uid then .error "Cluster not found or access denied"
    else
      let out := get_cluster_node_summary mgr s cid uid q
      match out.2 with
      | .success total _ _ nodes _ =>
        .ok (out.1, ⟨cid, c.name, c.status, some out.2, computeHealth (readyCount nodes) total⟩)
      | _ => .ok (out.1, ⟨cid, c.name, c.status, none, "unknown"⟩)

/-- `KubernetesClusterService.update_cluster_status` (service.py lines
477–487). -/
def update_cluster_status (s : Store) (cid : Nat) (status : String) (uid : Nat) :
    Store × Option ClusterRec :=
  match get_cluster_by_id s cid with
  | none => (s, none)
  | some c =>
    if c.user_id ≠ uid then (s, none)
    else
      let s' := updateClusterRow s cid (fun c0 => { c0 with status := status })
      (s', get_cluster_by_id s' cid)

/-- `KubernetesClusterService.delete_cluster` (service.py lines
489–502): owner check, cascade-delete of the cluster's node rows, then
the cluster row itself. -/
def delete_cluster (s : Store) (cid uid : Nat) : Store × Bool :=
  match get_cluster_by_id s cid with
  | none => (s, false)
  | some c =>
    if c.user_id ≠ uid then (s, false)
    else
      ({ s with clusters := s.clusters.filter (fun c0 => !(c0.id == cid)),
                nodes := s.nodes.filter (fun n => !(n.cluster_id == cid)) }, true)

/-- A registered cluster row owned by user 7 with last-known counts
3 masters / 2 workers, whose blob was encrypted under key bytes `[9]`. -/
def sampleCluster : ClusterRec :=
  { id := 1
    user_id := 7
    name := "prod"
    cluster_type := "existing"
    auth_type := "kubeconfig"
    api_server := some "https://10.0.0.1:6443"
    kubeconfig := .blob ⟨[9], "kubecfg-yaml"⟩
    master_nodes := 3
    worker_nodes := 2
    status := "registered"
    description := "" }

def sampleStore : Store :=
  { clusters := [sampleCluster], nodes := [⟨1, "master", "m1"⟩], nextId := 2 }

/-- The same store with the cluster in `error` status. -/
def erroredStore : Store :=
  { clusters := [{ sampleCluster with status := "error" }], nodes := [], nextId := 2 }

/-! ## Parsed YAML values and the Python operations the validator uses

`yaml.safe_load` is the external collaborator; its output is a `YVal`.
The Python dict/list/str operations the registration code applies to it
are modelled exactly, including the exceptions they raise on unexpected
shapes (`key in v` is a substring test on strings and a `TypeError` on
scalars; `.get` is an `AttributeError` on non-dicts), since those
exceptions are what the validator's `except Exception` branch catches. -/

inductive YVal where
  | null
  | bool (b : Bool)
  | num (n : Int)
  | str (s : String)
  | list (items : List YVal)
  | map (entries : List (String × YVal))

/-- Python truthiness of a YAML value. -/
def yTruthy : YVal → Bool
  | .null => false
  | .bool b => b
  | .num n => n ≠ 0
  | .str s => s ≠ ""
  | .list items => !items.isEmpty
  | .map es => !es.isEmpty

/-- Python `==` between a YAML value and the string `key` (used by the
`in` membership test on lists): only a string equal to `key` compares
equal. -/
def yEqStr (key : String) : YVal → Bool
  | .str s => s == key
  | _ => false

/-- Python `==` on YAML scalars; collection comparands are treated as
unequal (the code only applies this to the `current-context` and context
`name` scalars, and Python's `bool == int` cross-equality does not arise
there). -/
def pyScalarEq : YVal → YVal → Bool
  | .null, .null => true
  | .bool a, .bool b => a == b
  | .num a, .num b => a == b
  | .str a, .str b => a == b
  | _, _ => false

/-- Python `key in v`. -/
def pyIn (key : String) : YVal → Except String Bool
  | .map es => .ok (es.any (fun p => p.1 == key))
  | .list items => .ok (items.any (yEqStr key))
  | .str s => .ok (hasOccur key.data s.data)
  | _ => .error "argument is not iterable"

/-- Python `v.get(key, dflt)`. -/
def pyGet (key : String) (dflt : YVal) : YVal → Except String YVal
  | .map es => .ok (((es.find? (fun p => p.1 == key)).map Prod.snd).getD dflt)
  | _ => .error "object has no attribute get"

/-- Python `len(v)`. -/
def pyLen : YVal → Except String Nat
  | .str s => .ok s.length
  | .list items => .ok items.length
  | .map es => .ok es.length
  | _ => .error "object has no len()"

/-- Python `v[0]`. -/
def pyIndex0 : YVal → Except String YVal
  | .list (x :: _) => .ok x
  | .list [] => .error "list index out of range"
  | .str s =>
    match s.data with
    | c :: _ => .ok (.str ⟨[c]⟩)
    | [] => .error "string index out of range"
  | .map _ => .error "KeyError: 0"
  | _ => .error "object is not subscriptable"

/-! ## `ExistingClusterRegister.validate_all_fields` and registration -/

/-- The body of the kubeconfig branch of `validate_all_fields`
(schemas.py lines 58–72), before the wrapping `except Exception`
re-raise: the truthiness/`in` gate, the `clusters` extraction and
non-emptiness check, and the first cluster's server check, with every
Python exception carried in the `Except` error. -/
def kubeconfigCheckInner (doc : YVal) : Except String Unit :=
  if yTruthy doc = false then
    .error "Invalid kubeconfig format: missing apiVersion or clusters"
  else
    match pyIn "apiVersion" doc with
    | .error e => .error e
    | .ok hasApi =>
      if hasApi = false then
        .error "Invalid kubeconfig format: missing apiVersion or clusters"
      else
        match pyIn "clusters" doc with
        | .error e => .error e
        | .ok hasClu =>
          if hasClu = false then
            .error "Invalid kubeconfig format: missing apiVersion or clusters"
          else
            match pyGet "clusters" (.list []) doc with
            | .error e => .error e
            | .ok clusters =>
              if yTruthy clusters = false then
                .error "Invalid kubeconfig: no clusters defined"
              else
                match pyLen clusters with
                | .error e => .error e
                | .ok n =>
                  if n > 0 then
                    match pyIndex0 clusters with
                    | .error e => .error e
                    | .ok c0 =>
                      match pyGet "cluster" (.map []) c0 with
                      | .error e => .error e
                      | .ok cl =>
                        match pyGet "server" .null cl with
                        | .error e => .error e
                        | .ok server =>
                          if yTruthy server = false then
                            .error "Invalid kubeconfig: cluster server URL missing"
                          else .ok ()
                  else .ok ()

/-- The kubeconfig branch with its `except Exception as e:
raise ValueError(f'Invalid kubeconfig: {str(e)}')` wrapper (which also
rewraps the branch's own `ValueError`s, as in the source). -/
def kubeconfigCheck (doc : YVal) : Except String Unit :=
  match kubeconfigCheckInner doc with
  | .ok _ => .ok ()
  | .error e => .error ("Invalid kubeconfig: " ++ e)

/-- The raw `ExistingClusterRegister` payload.  `auth_parsed` is the
result of `yaml.safe_load(auth_data)`, `none` modelling a `YAMLError`;
both the validator and the service parse the same `auth_data`, so they
see the same value.  A missing `auth_type` in the raw dict is modelled
as `""` (both are falsy). -/
structure RegisterInput where
  name : String
  auth_data : String
  auth_parsed : Option YVal
  auth_type : String
  api_server : Option String
  description : Option String

/-- `ExistingClusterRegister.validate_all_fields` (schemas.py lines
41–88): the pydantic root validator run while the request body is being
parsed — before `KubernetesClusterService` is ever invoked. -/
def validate_all_fields (inp : RegisterInput) : Except String Unit :=
  if inp.auth_type = "" then .error "Auth type is required"
  else if inp.auth_type ≠ "kubeconfig" ∧ inp.auth_type ≠ "token" then
    .error "Auth type must be \"kubeconfig\" or \"token\""
  else if inp.auth_data = "" ∨ pyStripWs inp.auth_data = "" then
    .error "Authentication data cannot be empty"
  else if inp.auth_type = "kubeconfig" then
    match inp.auth_parsed with
    | none => .error "Invalid kubeconfig YAML format"
    | some doc => kubeconfigCheck doc
  else
    let token := pyStripWs inp.auth_data
    if token.data.length < 10 then .error "Token appears to be invalid (too short)"
    else
      match inp.api_server with
      | none => .error "API server URL is required for token authentication"
      | some api =>
        if api = "" then .error "API server URL is required for token authentication"
        else if strStartsWith "http://" api = false ∧ strStartsWith "https://" api = false then
          .error "API server URL must start with http:// or https://"
        else .ok ()

/-- Rendering of a YAML scalar inside a Python f-string. -/
def yToPyStr : YVal → String
  | .str s => s
  | .null => "None"
  | .bool true => "True"
  | .bool false => "False"
  | .num n => toString n
  | .list _ => "[...]"
  | .map _ => "{...}"

/-- The context-scanning loop of `_extract_cluster_info` (service.py
lines 146–151): the first context whose `name` equals the current
context yields `Registered cluster: <its cluster>`. -/
def findContextDescription (current : YVal) : List YVal → Except String (Option String)
  | [] => .ok none
  | c :: rest =>
    match pyGet "name" .null c with
    | .error e => .error e
    | .ok nm =>
      if pyScalarEq nm current then
        match pyGet "context" (.map []) c with
        | .error e => .error e
        | .ok ctx =>
          match pyGet "cluster" (.str "unknown") ctx with
          | .error e => .error e
          | .ok cl => .ok (some ("Registered cluster: " ++ yToPyStr cl))
      else findContextDescription current rest

/-- `_extract_cluster_info` (service.py lines 135–166), restricted to
its `description` output: `none` means the `info` dict ends up without a
`description` key; any exception inside the `try` collapses to the
default description. -/
def extract_cluster_info_description (authParsed : Option YVal) (auth_type : String)
    (api_server : Option String) : Option String :=
  if auth_type = "kubeconfig" then
    match authParsed with
    | none => some "Registered Kubernetes cluster"
    | some doc =>
      let run : Except String (Option String) :=
        match pyGet "current-context" (.str "") doc with
        | .error e => .error e
        | .ok current =>
          match pyGet "contexts" (.list []) doc with
          | .error e => .error e
          | .ok (.list items) =>
            match findContextDescription current items with
            | .error e => .error e
            | .ok d =>
              match pyGet "clusters" (.list []) doc with
              | .error e => .error e
              | .ok clusters =>
                if yTruthy clusters then
                  match pyIndex0 clusters with
                  | .error e => .error e
                  | .ok c0 =>
                    match pyGet "cluster" (.map []) c0 with
                    | .error e => .error e
                    | .ok cl =>
                      match pyGet "server" (.str "unknown") cl with
                      | .error e => .error e
                      | .ok _ => .ok d
                else .ok d
          | .ok _ => .error "object is not iterable"
      match run with
      | .ok d => d
      | .error _ => some "Registered Kubernetes cluster"
  else if auth_type = "token" then
    some ("Token-authenticated cluster: " ++
      (match api_server with | some s => s | none => "None"))
  else none

/-- Side effects of interest during registration. -/
inductive RegEvent where
  | encrypt
  | persist
deriving DecidableEq, Repr

structure RegOutcome where
  store : Store
  result : Except String ClusterRec
  events : List RegEvent

/-- The API-server extraction of `register_existing_cluster`
(service.py lines 72–88): the explicit `api_server` field for token
auth; a best-effort read of `clusters[0].cluster.server` from the
parsed kubeconfig otherwise, with every exception swallowed into
`None`.  A non-string server value is also collapsed to `None` (no
claim exercises that shape). -/
def extractApiServer (inp : RegisterInput) : Option String :=
  if inp.auth_type = "token" then inp.api_server
  else if inp.auth_type = "kubeconfig" then
    match inp.auth_parsed with
    | none => none
    | some doc =>
      match pyGet "clusters" (.list []) doc with
      | .error _ => none
      | .ok clusters =>
        if yTruthy clusters then
          match pyIndex0 clusters with
          | .error _ => none
          | .ok c0 =>
            match pyGet "cluster" (.map []) c0 with
            | .error _ => none
            | .ok cl =>
              match pyGet "server" .null cl with
              | .error _ => none
              | .ok (.str srv) => some srv
              | .ok _ => none
        else none
  else none

/-- `KubernetesClusterService.register_existing_cluster` (service.py
lines 65–133): duplicate-name check, API-server extraction,
token/api-server requirement, encryption of the raw auth payload
(`RegEvent.encrypt`), record creation with `status=registered` and zero
counts plus commit (`RegEvent.persist`), then the best-effort initial
node-count probe whose failure is swallowed. -/
def register_existing_cluster (mgr : EncryptionManager) (s : Store) (inp : RegisterInput)
    (uid : Nat) (q : QueryResult) : RegOutcome :=
  if (s.clusters.find? (fun c => c.name == inp.name && c.user_id == uid)).isSome then
    ⟨s, .error "Cluster with this name already exists", []⟩
  else
    let api_server := extractApiServer inp
    if inp.auth_type = "token" ∧ optStrFalsy api_server = true then
      ⟨s, .error "API server URL is required for token authentication", []⟩
    else
      let enc := encrypt_data mgr inp.auth_data
      let infoDesc := extract_cluster_info_description inp.auth_parsed inp.auth_type api_server
      let desc :=
        match inp.description with
        | some d => if d = "" then infoDesc.getD "" else d
        | none => infoDesc.getD ""
      let row : ClusterRec :=
        { id := s.nextId
          user_id := uid
          name := inp.name
          cluster_type := "existing"
          auth_type := inp.auth_type
          api_server := api_server
          kubeconfig := enc
          master_nodes := 0
          worker_nodes := 0
          status := "registered"
          description := desc }
      let s1 : Store := { s with clusters := s.clusters ++ [row], nextId := s.nextId + 1 }
      let s2 := (get_cluster_node_summary mgr s1 row.id uid q).1
      ⟨s2, .ok ((get_cluster_by_id s2 row.id).getD row), [.encrypt, .persist]⟩

/-- The `/clusters/register` flow: pydantic's `validate_all_fields` runs
while the request body is parsed, before the service is constructed, so
a validation failure aborts (HTTP 400) before any encryption or
persistence can occur. -/
def registerEndpoint (mgr : EncryptionManager) (s : Store) (inp : RegisterInput)
    (uid : Nat) (q : QueryResult) : RegOutcome :=
  match validate_all_fields inp with
  | .error e => ⟨s, .error e, []⟩
  | .ok _ => register_existing_cluster mgr s inp uid q

/-- "Lacking key `k`" in the claim's sense: not a mapping carrying `k`
(a non-mapping document lacks every key). -/
def lacksKey (k : String) : YVal → Bool
  | .map es => es.all (fun p => !(p.1 == k))
  | _ => true

/-- "First cluster entry has no server URL" in the claim's sense: the
document's `clusters` value is a non-empty list whose head is a mapping
whose `cluster` sub-mapping carries no truthy `server` (absent
`cluster`/`server` keys count as missing). -/
def firstClusterServerMissing : YVal → Bool
  | .map es =>
    match es.find? (fun p => p.1 == "clusters") with
    | some (_, .list (c0 :: _)) =>
      match c0 with
      | .map ces =>
        match ces.find? (fun p => p.1 == "cluster") with
        | some (_, .map cles) =>
          match cles.find? (fun p => p.1 == "server") with
          | some (_, v) => !yTruthy v
          | none => true
        | some _ => false
        | none => true
      | _ => false
    | _ => false
  | _ => false

/-- A registration input whose kubeconfig document lacks a `clusters`
key. -/
def regNoClustersInput : RegisterInput :=
  { name := "c1"
    auth_data := "apiVersion: v1"
    auth_parsed := some (.map [("apiVersion", .str "v1")])
    auth_type := "kubeconfig"
    api_server := none
    description := none }

/-! ## Helper lemmas -/

theorem removeAllFuel_of_no_occur (pat : List Char) :
    ∀ (fuel : Nat) (cs : List Char), cs.length ≤ fuel → hasOccur pat cs = false →
      removeAllFuel pat fuel cs = cs := by
  intro fuel
  induction fuel with
  | zero => intro cs _ _; rfl
  | succ f ih =>
    intro cs hlen hocc
    cases cs with
    | nil => rfl
    | cons c rest =>
      simp only [hasOccur, Bool.or_eq_false_iff] at hocc
      rw [removeAllFuel, if_neg (by simp [hocc.1])]
      have := ih rest (by simpa using Nat.le_of_succ_le_succ hlen) hocc.2
      rw [this]

theorem removeAll_of_no_occur (pat cs : List Char) (hocc : hasOccur pat cs = false) :
    removeAll pat cs = cs :=
  removeAllFuel_of_no_occur pat cs.length cs (Nat.le_refl _) hocc

theorem removeAll_prefix_drop (pat t : List Char) (hp : pat ≠ [])
    (hocc : hasOccur pat t = false) :
    removeAll pat (pat ++ t) = t := by
  cases pat with
  | nil => exact absurd rfl hp
  | cons p ps =>
    have hcond : (p :: ps).isPrefixOf (p :: (ps ++ t)) = true := by
      rw [← List.cons_append]
      exact List.isPrefixOf_iff_prefix.mpr (List.prefix_append _ _)
    have hdrop : (p :: (ps ++ t)).drop (p :: ps).length = t := by
      rw [← List.cons_append]
      exact List.drop_left _ _
    show removeAllFuel (p :: ps) ((p :: ps) ++ t).length ((p :: ps) ++ t) = t
    rw [List.cons_append]
    have hlen : (p :: (ps ++ t)).length = (ps ++ t).length + 1 := by simp
    rw [hlen, removeAllFuel, if_pos hcond, hdrop]
    exact removeAllFuel_of_no_occur _ _ _ (by simp) hocc

theorem strReplaceAll_eq_drop (key : String)
    (h1 : strStartsWith rolePrefix key = true)
    (h2 : hasOccur rolePrefix.data (key.data.drop rolePrefix.data.length) = false) :
    strReplaceAllEmpty rolePrefix key = strDropChars rolePrefix.data.length key := by
  have hpre : rolePrefix.data <+: key.data := by
    simpa [strStartsWith] using h1
  obtain ⟨t, ht⟩ := hpre
  show String.mk (removeAll rolePrefix.data key.data) = String.mk (key.data.drop rolePrefix.data.length)
  rw [← ht, List.drop_left]
  rw [← ht, List.drop_left] at h2
  rw [removeAll_prefix_drop _ _ (by decide) h2]

theorem extractRoles_eq_specRoles (labels : List (String × String))
    (h : ∀ p ∈ labels, strStartsWith rolePrefix p.1 = true →
      hasOccur rolePrefix.data (p.1.data.drop rolePrefix.data.length) = false) :
    extractRoles labels = specRoles labels := by
  unfold extractRoles specRoles
  have hfm : (labels.filterMap fun p =>
        if strStartsWith rolePrefix p.1 then some (strReplaceAllEmpty rolePrefix p.1) else none)
      = labels.filterMap fun p =>
        if strStartsWith rolePrefix p.1 then some (strDropChars rolePrefix.data.length p.1) else none := by
    refine List.filterMap_congr fun p hp => ?_
    by_cases hs : strStartsWith rolePrefix p.1 = true
    · simp only [hs, if_pos, strReplaceAll_eq_drop p.1 hs (h p hp hs)]
    · simp only [Bool.not_eq_true] at hs
      simp [hs]
  rw [hfm]

/-! ## Claims about the encryption module -/

/-- C1: for every fixed valid master key and every non-empty string `s`,
`decrypt_data (encrypt_data s) = s` — encryption followed by decryption
under the same key, including the urlsafe-base64 transport re-encoding,
is the identity on non-empty plaintexts. -/
theorem encrypt_decrypt_roundtrip (m : EncryptionManager) (s : String) (hs : s ≠ "") :
    decrypt_data m (encrypt_data m s) = .ok s := by
  simp [encrypt_data, decrypt_data, hs]

theorem encrypt_decrypt_roundtrip_witness :
    ("hello" : String) ≠ "" ∧
      decrypt_data ⟨[1, 2]⟩ (encrypt_data ⟨[1, 2]⟩ "hello") = .ok "hello" :=
  ⟨by decide, encrypt_decrypt_roundtrip ⟨[1, 2]⟩ "hello" (by decide)⟩

/-- C2: for distinct key bytes A ≠ B and non-empty plaintext `s`,
decrypting under B a blob produced by `encrypt_data` under A fails with
the distinguishable decryption-failure error (the `ValueError` carrying
the "Decryption failed - possible key mismatch" context), and a corrupted
blob fails with the same distinguishable error. -/
theorem decrypt_wrong_key_fails (a b : EncryptionManager) (s : String)
    (hk : a.cipherKey ≠ b.cipherKey) (hs : s ≠ "") :
    decrypt_data b (encrypt_data a s) = .error .decryptionFailed ∧
      ∀ tag : Nat, decrypt_data b (.garbage tag) = .error .decryptionFailed := by
  refine ⟨?_, fun tag => rfl⟩
  simp [encrypt_data, decrypt_data, hs, hk]

theorem decrypt_wrong_key_fails_witness :
    decrypt_data ⟨[2]⟩ (encrypt_data ⟨[1]⟩ "secret") = .error .decryptionFailed ∧
      decrypt_data ⟨[2]⟩ (.garbage 0) = .error .decryptionFailed := by
  have h := decrypt_wrong_key_fails ⟨[1]⟩ ⟨[2]⟩ "secret" (by decide) (by decide)
  exact ⟨h.1, h.2 0⟩

/-- C4: for every invalid new key string (one rejected by
`_validate_and_decode_key`, e.g. wrong stripped length or not decoding to
32 bytes), `rotate_key` returns `False`, the previously active key stays
the active cipher key, and every blob encrypted under the previous key
still decrypts successfully afterwards. -/
theorem rotate_key_invalid_preserves_state (m : EncryptionManager) (k : String)
    (h : ∃ e, validate_and_decode_key k = .error e) :
    rotate_key m k = (m, false) ∧
      ∀ s : String, s ≠ "" →
        decrypt_data (rotate_key m k).1 (encrypt_data m s) = .ok s := by
  obtain ⟨e, he⟩ := h
  have hr : rotate_key m k = (m, false) := by simp [rotate_key, he]
  refine ⟨hr, fun s hs => ?_⟩
  rw [hr]
  simp [encrypt_data, decrypt_data, hs]

theorem rotate_key_invalid_preserves_state_witness :
    rotate_key ⟨[5]⟩ "short" = (⟨[5]⟩, false) ∧
      decrypt_data (rotate_key ⟨[5]⟩ "short").1 (encrypt_data ⟨[5]⟩ "old data") = .ok "old data" := by
  have h := rotate_key_invalid_preserves_state ⟨[5]⟩ "short"
    ⟨"Invalid encryption key format: Key must be 44 characters long", by rfl⟩
  exact ⟨h.1, h.2 "old data" (by decide)⟩

/-- C3: the claim states that for a `token` cluster with an `https://`
API server the synthesized connection descriptor has TLS verification
enabled by default.  The code does the opposite: for every `https://`
endpoint it writes `insecure-skip-tls-verify: True` into the synthesized
kubeconfig, unconditionally disabling TLS verification — contradicting
its own adjacent comment ("Add TLS verification if it's an HTTPS URL").
This theorem evaluates the code at a concrete https endpoint and exhibits
the insecure default. -/
theorem token_kubeconfig_https_skips_tls_verification :
    (create_kubeconfig_with_token "tok" "https://example.com:6443").cluster
      = { server := "https://example.com:6443", insecureSkipTlsVerify := some true } ∧
    (create_kubeconfig_with_token "tok" "http://example.com:8080").cluster.insecureSkipTlsVerify
      = none := by
  constructor <;> rfl

/-- C6 counterexample: the claim says the role set is the set of
*suffixes* of the `node-role.kubernetes.io/<role>` labels, but the code
deletes every occurrence of the prefix, so a label whose suffix itself
contains the prefix yields a different role: here the suffix is
`node-role.kubernetes.io/a` while the code computes `a`. -/
theorem parse_roles_not_suffixes :
    (parseNode doublePrefixNode).roles = ["a"] ∧
      specRoles doublePrefixNode.labels = ["node-role.kubernetes.io/a"] ∧
      (parseNode doublePrefixNode).roles ≠ specRoles doublePrefixNode.labels := by
  refine ⟨by decide, by decide, by decide⟩

/-- C6 (amended): for every parsed node whose role-label suffixes do not
themselves contain the `node-role.kubernetes.io/` prefix (true of every
valid Kubernetes label key), the role set is the set of suffixes of its
`node-role.kubernetes.io/<role>` labels, with the legacy
`kubernetes.io/role=master` fallback (in general the code removes every
occurrence of the prefix, not just the leading one); the node is
classified master/control-plane iff the role set contains
`control-plane` or `master`; and workerCount = totalCount − masterCount
(equivalently, masterCount + workerCount = totalCount). -/
theorem node_roles_classification (n : NodeJson)
    (h : ∀ p ∈ n.labels, strStartsWith rolePrefix p.1 = true →
      hasOccur rolePrefix.data (p.1.data.drop rolePrefix.data.length) = false) :
    (parseNode n).roles = specRoles n.labels ∧
      (is_master_node (parseNode n) = true ↔
        "control-plane" ∈ (parseNode n).roles ∨ "master" ∈ (parseNode n).roles) ∧
      ∀ items : List NodeJson,
        masterCount (parseNodesJson items) + workerCount (parseNodesJson items)
          = (parseNodesJson items).length := by
  refine ⟨extractRoles_eq_specRoles n.labels h, ?_, ?_⟩
  · simp [is_master_node, List.contains, List.elem_iff]
  · intro items
    have hle : masterCount (parseNodesJson items) ≤ (parseNodesJson items).length :=
      List.countP_le_length is_master_node
    unfold workerCount
    omega

theorem node_roles_classification_witness :
    (parseNode cpNode).roles = specRoles cpNode.labels ∧
      (is_master_node (parseNode cpNode) = true ↔
        "control-plane" ∈ (parseNode cpNode).roles ∨ "master" ∈ (parseNode cpNode).roles) ∧
      masterCount (parseNodesJson [cpNode]) + workerCount (parseNodesJson [cpNode])
        = (parseNodesJson [cpNode]).length := by
  have h := node_roles_classification cpNode (by decide)
  exact ⟨h.1, h.2.1, h.2.2 [cpNode]⟩

/-! ## Claims about registration validation -/

theorem kubeconfigCheckInner_err (doc : YVal)
    (hbad : lacksKey "clusters" doc = true ∨ lacksKey "apiVersion" doc = true ∨
      firstClusterServerMissing doc = true) :
    ∃ e, kubeconfigCheckInner doc = .error e := by
  cases doc with
  | null => exact ⟨_, rfl⟩
  | bool b => cases b with
    | false => exact ⟨_, rfl⟩
    | true => exact ⟨_, rfl⟩
  | num n =>
    simp only [kubeconfigCheckInner, yTruthy, pyIn]
    split_ifs <;> exact ⟨_, rfl⟩
  | str s =>
    simp only [kubeconfigCheckInner, yTruthy, pyIn, pyGet]
    split_ifs <;> exact ⟨_, rfl⟩
  | list items =>
    simp only [kubeconfigCheckInner, yTruthy, pyIn, pyGet]
    split_ifs <;> exact ⟨_, rfl⟩
  | map es =>
    rcases hbad with h | h | h
    · have hany : es.any (fun p => p.1 == "clusters") = false := by
        simp only [lacksKey, List.all_eq_true] at h
        rw [List.any_eq_false]
        intro x hx
        simpa using h x hx
      simp only [kubeconfigCheckInner, yTruthy, pyIn, hany]
      split_ifs <;> exact ⟨_, rfl⟩
    · have hany : es.any (fun p => p.1 == "apiVersion") = false := by
        simp only [lacksKey, List.all_eq_true] at h
        rw [List.any_eq_false]
        intro x hx
        simpa using h x hx
      simp only [kubeconfigCheckInner, yTruthy, pyIn, hany]
      split_ifs <;> exact ⟨_, rfl⟩
    · simp only [firstClusterServerMissing] at h
      cases hfind : es.find? (fun p => p.1 == "clusters") with
      | none => rw [hfind] at h; simp at h
      | some pr =>
        rw [hfind] at h
        obtain ⟨k, v⟩ := pr
        have hmem := List.mem_of_find?_eq_some hfind
        have hne : es.isEmpty = false := by
          cases es with
          | nil => cases hmem
          | cons a l => rfl
        have hkey := List.find?_some hfind
        have hclu : es.any (fun p => p.1 == "clusters") = true :=
          List.any_eq_true.mpr ⟨(k, v), hmem, hkey⟩
        cases v with
        | null => simp at h
        | bool b => simp at h
        | num m => simp at h
        | str s => simp at h
        | map m => simp at h
        | list items =>
          cases items with
          | nil => simp at h
          | cons c0 rest =>
            cases c0 with
            | null => simp at h
            | bool b => simp at h
            | num m => simp at h
            | str s => simp at h
            | list l => simp at h
            | map ces =>
              cases hapi : es.any (fun p => p.1 == "apiVersion") with
              | false =>
                refine ⟨"Invalid kubeconfig format: missing apiVersion or clusters", ?_⟩
                simp [kubeconfigCheckInner, yTruthy, pyIn, hne, hapi]
              | true =>
                refine ⟨"Invalid kubeconfig: cluster server URL missing", ?_⟩
                simp only [] at h
                cases hcf : ces.find? (fun p => p.1 == "cluster") with
                | none =>
                  rw [hcf] at h
                  simp [kubeconfigCheckInner, yTruthy, pyIn, pyGet, pyLen, pyIndex0,
                    Option.map, Option.getD, hne, hapi, hclu, hfind, hcf]
                | some prc =>
                  obtain ⟨kc, vc⟩ := prc
                  rw [hcf] at h
                  cases vc with
                  | null => simp at h
                  | bool b => simp at h
                  | num m => simp at h
                  | str s => simp at h
                  | list l => simp at h
                  | map cles =>
                    simp only [] at h
                    cases hsf : cles.find? (fun p => p.1 == "server") with
                    | none =>
                      simp [kubeconfigCheckInner, yTruthy, pyIn, pyGet, pyLen, pyIndex0,
                        Option.map, Option.getD, hne, hapi, hclu, hfind, hcf, hsf]
                    | some prs =>
                      obtain ⟨ks, sv⟩ := prs
                      rw [hsf] at h
                      have hserver : yTruthy sv = false := by simpa using h
                      simp [kubeconfigCheckInner, yTruthy, pyIn, pyGet, pyLen, pyIndex0,
                        Option.map, Option.getD, hne, hapi, hclu, hfind, hcf, hsf]
                      simpa [yTruthy] using hserver

theorem validate_all_fields_err (inp : RegisterInput) (doc : YVal)
    (hty : inp.auth_type = "kubeconfig")
    (hp : inp.auth_parsed = some doc)
    (hbad : lacksKey "clusters" doc = true ∨ lacksKey "apiVersion" doc = true ∨
      firstClusterServerMissing doc = true) :
    ∃ e, validate_all_fields inp = .error e := by
  obtain ⟨e0, he0⟩ := kubeconfigCheckInner_err doc hbad
  have hchk : kubeconfigCheck doc = .error ("Invalid kubeconfig: " ++ e0) := by
    simp [kubeconfigCheck, he0]
  unfold validate_all_fields
  rw [hty, hp]
  simp only [hchk]
  split_ifs <;> exact ⟨_, rfl⟩

/-- C5: for a registration request with authType `kubeconfig` whose
auth_data parses to a YAML document lacking a `clusters` key (or lacking
`apiVersion`, or whose first cluster entry carries no server URL), the
request is rejected by the pydantic validator before the service runs:
the store is unchanged, no `encrypt` (or any other) event happens, and
the caller receives a validation error. -/
theorem invalid_kubeconfig_rejected_before_encryption (mgr : EncryptionManager)
    (s : Store) (inp : RegisterInput) (uid : Nat) (q : QueryResult) (doc : YVal)
    (hty : inp.auth_type = "kubeconfig")
    (hp : inp.auth_parsed = some doc)
    (hbad : lacksKey "clusters" doc = true ∨ lacksKey "apiVersion" doc = true ∨
      firstClusterServerMissing doc = true) :
    (registerEndpoint mgr s inp uid q).store = s ∧
      (registerEndpoint mgr s inp uid q).events = [] ∧
      ∃ e, (registerEndpoint mgr s inp uid q).result = .error e := by
  obtain ⟨e, he⟩ := validate_all_fields_err inp doc hty hp hbad
  refine ⟨?_, ?_, ⟨e, ?_⟩⟩ <;> simp [registerEndpoint, he]

theorem invalid_kubeconfig_rejected_witness :
    (registerEndpoint ⟨[9]⟩ sampleStore regNoClustersInput 7 (.err "down")).store = sampleStore ∧
      (registerEndpoint ⟨[9]⟩ sampleStore regNoClustersInput 7 (.err "down")).events = [] ∧
      ∃ e, (registerEndpoint ⟨[9]⟩ sampleStore regNoClustersInput 7 (.err "down")).result
        = .error e :=
  invalid_kubeconfig_rejected_before_encryption ⟨[9]⟩ sampleStore regNoClustersInput 7
    (.err "down") (.map [("apiVersion", .str "v1")]) rfl rfl (Or.inl (by decide))

/-! ## Claims about the service operations -/

theorem rat_half_lt_iff (r t : Nat) : ((r : ℚ) < t / 2) ↔ 2 * r < t := by
  rw [lt_div_iff₀ (by norm_num : (0:ℚ) < 2)]
  have : (r : ℚ) * 2 = ((2 * r : ℕ) : ℚ) := by push_cast; ring
  rw [this, Nat.cast_lt]

theorem rat_half_le_iff (r t : Nat) : ((t : ℚ) / 2 ≤ r) ↔ t ≤ 2 * r := by
  rw [div_le_iff₀ (by norm_num : (0:ℚ) < 2)]
  have : (r : ℚ) * 2 = ((2 * r : ℕ) : ℚ) := by push_cast; ring
  rw [this, Nat.cast_le]

/-- C7: the computed health status is `critical` iff the snapshot is
empty or fewer than half the nodes are ready, `healthy` iff non-empty
and all nodes ready, and `warning` iff non-empty, not all ready and at
least half (`readyCount ≥ 0.5 × totalCount`, stated exactly over ℚ)
ready. -/
theorem cluster_health_thresholds (ready total : Nat) :
    (computeHealth ready total = "critical" ↔ total = 0 ∨ (ready : ℚ) < total / 2) ∧
      (computeHealth ready total = "healthy" ↔ total ≠ 0 ∧ ready = total) ∧
      (computeHealth ready total = "warning" ↔
        total ≠ 0 ∧ ready ≠ total ∧ (ready : ℚ) ≥ total / 2) := by
  unfold computeHealth
  split_ifs with h0 h1 h2
  · exact ⟨iff_of_true rfl (Or.inl h0),
      iff_of_false (by decide) (by simp [h0]),
      iff_of_false (by decide) (by simp [h0])⟩
  · refine ⟨iff_of_false (by decide) ?_, iff_of_true rfl ⟨h0, h1⟩,
      iff_of_false (by decide) (fun h => h.2.1 h1)⟩
    rintro (h | h)
    · exact h0 h
    · rw [rat_half_lt_iff] at h
      omega
  · refine ⟨iff_of_false (by decide) ?_, iff_of_false (by decide) (fun h => h1 h.2),
      iff_of_true rfl ⟨h0, h1, (rat_half_le_iff ready total).mpr (by omega)⟩⟩
    rintro (h | h)
    · exact h0 h
    · rw [rat_half_lt_iff] at h
      omega
  · refine ⟨iff_of_true rfl (Or.inr ((rat_half_lt_iff ready total).mpr (by omega))),
      iff_of_false (by decide) (fun h => h1 h.2),
      iff_of_false (by decide) (fun h => h2 ((rat_half_le_iff ready total).mp h.2.2))⟩

/-- C8 counterexample: on a query failure, `refresh_cluster_nodes`
returns only the bare error message — the last-known counts (3 masters,
2 workers in this store) are *not* part of the result handed to the
caller, contradicting the claim for the refresh path (the persisted
counts themselves are indeed untouched). -/
theorem refresh_failure_result_lacks_counts :
    refresh_cluster_nodes ⟨[9]⟩ sampleStore 1 7 (.err "connection refused")
        = (sampleStore, .error "Failed to connect to cluster: connection refused") ∧
      refreshCarriesCounts
        (refresh_cluster_nodes ⟨[9]⟩ sampleStore 1 7 (.err "connection refused")).2 3 2 = false := by
  exact ⟨by decide, by decide⟩

/-- C8 (amended): when the node query fails, the persisted
`master_nodes`, `worker_nodes` and `status` keep their last-known values
(the store is unchanged); `get_cluster_node_summary` returns those
last-known counts together with the error status and message, while
`refresh_cluster_nodes` surfaces only the error message (the counts are
not included in the refresh result). -/
theorem query_failure_preserves_counts (mgr : EncryptionManager) (s : Store)
    (c : ClusterRec) (cid uid : Nat) (msg a t : String)
    (hc : get_cluster_by_id s cid = some c)
    (hu : c.user_id = uid)
    (ha : get_cluster_auth_data mgr s cid uid = some (a, t))
    (hapi : ¬(t = "token" ∧ optStrFalsy c.api_server = true)) :
    get_cluster_node_summary mgr s cid uid (.err msg)
        = (s, .queryError (c.master_nodes + c.worker_nodes) c.master_nodes c.worker_nodes t
            ("Failed to connect to cluster: " ++ msg)) ∧
      refresh_cluster_nodes mgr s cid uid (.err msg)
        = (s, .error ("Failed to connect to cluster: " ++ msg)) := by
  have hsum : get_cluster_node_summary mgr s cid uid (.err msg)
      = (s, .queryError (c.master_nodes + c.worker_nodes) c.master_nodes c.worker_nodes t
          ("Failed to connect to cluster: " ++ msg)) := by
    simp [get_cluster_node_summary, hc, hu, ha, hapi]
  exact ⟨hsum, by simp [refresh_cluster_nodes, hsum, SummaryResult.errorMsg]⟩

theorem query_failure_preserves_counts_witness :
    get_cluster_node_summary ⟨[9]⟩ sampleStore 1 7 (.err "timeout")
        = (sampleStore, .queryError 5 3 2 "kubeconfig" "Failed to connect to cluster: timeout") ∧
      refresh_cluster_nodes ⟨[9]⟩ sampleStore 1 7 (.err "timeout")
        = (sampleStore, .error "Failed to connect to cluster: timeout") := by
  have h := query_failure_preserves_counts ⟨[9]⟩ sampleStore sampleCluster 1 7 "timeout"
    "kubecfg-yaml" "kubeconfig" (by decide) (by decide) (by decide) (by decide)
  exact ⟨h.1, h.2⟩

/-- C9: every per-cluster operation called with a user id different from
the record's owner returns its failure sentinel — `(None, None)` for
`get_cluster_auth_data`, the access-denied error mapping for
`get_cluster_node_summary`, `None` for `update_cluster_status`, `False`
for `delete_cluster` — and leaves the stored cluster rows and node rows
unchanged. -/
theorem cross_user_access_denied (mgr : EncryptionManager) (s : Store)
    (c : ClusterRec) (cid uid : Nat)
    (hc : get_cluster_by_id s cid = some c) (hu : c.user_id ≠ uid) :
    get_cluster_auth_data mgr s cid uid = none ∧
      (∀ q, get_cluster_node_summary mgr s cid uid q = (s, .denied)) ∧
      (∀ st, update_cluster_status s cid st uid = (s, none)) ∧
      delete_cluster s cid uid = (s, false) := by
  refine ⟨?_, fun q => ?_, fun st => ?_, ?_⟩ <;>
    simp [get_cluster_auth_data, get_cluster_node_summary, update_cluster_status,
      delete_cluster, hc, hu]

theorem cross_user_access_denied_witness :
    get_cluster_auth_data ⟨[9]⟩ sampleStore 1 8 = none ∧
      get_cluster_node_summary ⟨[9]⟩ sampleStore 1 8 (.err "x") = (sampleStore, .denied) ∧
      update_cluster_status sampleStore 1 "error" 8 = (sampleStore, none) ∧
      delete_cluster sampleStore 1 8 = (sampleStore, false) := by
  have h := cross_user_access_denied ⟨[9]⟩ sampleStore sampleCluster 1 8 (by decide) (by decide)
  exact ⟨h.1, h.2.1 (.err "x"), h.2.2.1 "error", h.2.2.2⟩

theorem find?_map_update (l : List ClusterRec) (cid : Nat) (f : ClusterRec → ClusterRec)
    (hf : ∀ c, (f c).id = c.id) :
    (l.map fun c => if c.id = cid then f c else c).find? (fun c => c.id == cid)
      = (l.find? (fun c => c.id == cid)).map f := by
  induction l with
  | nil => rfl
  | cons c rest ih =>
    by_cases h : c.id = cid
    · simp [List.find?_cons, h, hf]
    · simp [List.find?_cons, h, ih]

theorem get_cluster_by_id_update (s : Store) (cid : Nat) (f : ClusterRec → ClusterRec)
    (hf : ∀ c, (f c).id = c.id) :
    get_cluster_by_id (updateClusterRow s cid f) cid = (get_cluster_by_id s cid).map f :=
  find?_map_update s.clusters cid f hf

/-- C10: a successful node query always persists status `registered`
(healing any previous `error`/`creating` status) together with the
freshly derived master/worker counts, and returns the success summary. -/
theorem success_query_heals_status (mgr : EncryptionManager) (s : Store)
    (c : ClusterRec) (cid uid : Nat) (items : List NodeJson) (a t : String)
    (hc : get_cluster_by_id s cid = some c)
    (hu : c.user_id = uid)
    (ha : get_cluster_auth_data mgr s cid uid = some (a, t))
    (hapi : ¬(t = "token" ∧ optStrFalsy c.api_server = true)) :
    get_cluster_node_summary mgr s cid uid (.ok items)
        = (updateClusterRow s cid fun c0 =>
            { c0 with master_nodes := masterCount (parseNodesJson items),
                      worker_nodes := workerCount (parseNodesJson items),
                      status := "registered" },
          .success (parseNodesJson items).length (masterCount (parseNodesJson items))
            (workerCount (parseNodesJson items)) (parseNodesJson items) t) ∧
      get_cluster_by_id (get_cluster_node_summary mgr s cid uid (.ok items)).1 cid
        = some { c with master_nodes := masterCount (parseNodesJson items),
                        worker_nodes := workerCount (parseNodesJson items),
                        status := "registered" } := by
  have hsum : get_cluster_node_summary mgr s cid uid (.ok items)
      = (updateClusterRow s cid fun c0 =>
          { c0 with master_nodes := masterCount (parseNodesJson items),
                    worker_nodes := workerCount (parseNodesJson items),
                    status := "registered" },
        .success (parseNodesJson items).length (masterCount (parseNodesJson items))
          (workerCount (parseNodesJson items)) (parseNodesJson items) t) := by
    simp [get_cluster_node_summary, hc, hu, ha, hapi]
  refine ⟨hsum, ?_⟩
  have h1 : (get_cluster_node_summary mgr s cid uid (.ok items)).1
      = updateClusterRow s cid fun c0 =>
          { c0 with master_nodes := masterCount (parseNodesJson items),
                    worker_nodes := workerCount (parseNodesJson items),
                    status := "registered" } := by
    rw [hsum]
  rw [h1, get_cluster_by_id_update s cid
    (fun c0 => { c0 with master_nodes := masterCount (parseNodesJson items),
                         worker_nodes := workerCount (parseNodesJson items),
                         status := "registered" }) (fun c0 => rfl), hc]
  rfl

theorem success_query_heals_status_witness :
    get_cluster_by_id
        (get_cluster_node_summary ⟨[9]⟩ erroredStore 1 7 (.ok [cpNode])).1 1
      = some { sampleCluster with
               status := "registered", master_nodes := 1, worker_nodes := 0 } := by
  have h := success_query_heals_status ⟨[9]⟩ erroredStore
    { sampleCluster with status := "error" } 1 7 [cpNode] "kubecfg-yaml" "kubeconfig"
    (by decide) (by decide) (by decide) (by decide)
  have h2 := h.2
  rw [h2]
  decide

end AnsiblePlatform
